import Mathlib

/-!
# vsts-buildkite: the webhook translator `vstsHandler`

A shallow embedding of `src/main.go` and the properties of its one handler.

Go strings are modelled by `String`, slices by `List`, `int` by `Int` and
`time.Time` by its textual form.  The handler's effects (the inbound response,
the log, standard output, the requests handed to `client.Do`, a panic) are the
fields of `Outcome`.  The standard-library calls whose result depends on the
outside world or on a full JSON/URL grammar (`json.Unmarshal`, `url.Parse`
inside `http.NewRequest`, `client.Do`) are the fields of `Externals`; the
library calls with a closed description (`strings.Split`, `http.Error`,
`Header.Set`, `json.Marshal` of a `BuildkitePayload`) are defined here.
-/

set_option autoImplicit false

namespace VstsBuildkite

/-! ## Data model (`src/main.go`, lines 15-210) -/

/-- The two process-wide configuration values (lines 15-18), set once in `main`. -/
structure Config where
  buildkiteAuthToken : String
  buildkiteURL : String
  deriving DecidableEq, Repr

/-- The anonymous struct of `VSTSPayload.Message` and `VSTSPayload.DetailedMessage`. -/
structure MessageBlock where
  Text : String := ""
  HTML : String := ""
  Markdown : String := ""
  deriving DecidableEq, Repr

/-- The anonymous struct of a commit's `Author` and `Committer`. -/
structure Signature where
  Name : String := ""
  Email : String := ""
  Date : String := ""
  deriving DecidableEq, Repr

/-- An element of `VSTSPayload.Resource.Commits` (lines 38-52). -/
structure CommitRecord where
  CommitID : String := ""
  Author : Signature := {}
  Committer : Signature := {}
  Comment : String := ""
  URL : String := ""
  deriving DecidableEq, Repr

/-- An element of `VSTSPayload.Resource.RefUpdates` (lines 53-57). -/
structure RefUpdate where
  Name : String := ""
  OldObjectID : String := ""
  NewObjectID : String := ""
  deriving DecidableEq, Repr

/-- The struct `VSTSPayload.Resource.Repository.Project` (lines 62-68). -/
structure ProjectInfo where
  ID : String := ""
  Name : String := ""
  URL : String := ""
  State : String := ""
  Visibility : String := ""
  deriving DecidableEq, Repr

/-- The struct `VSTSPayload.Resource.Repository` (lines 58-71). -/
structure RepositoryInfo where
  ID : String := ""
  Name : String := ""
  URL : String := ""
  Project : ProjectInfo := {}
  DefaultBranch : String := ""
  RemoteURL : String := ""
  deriving DecidableEq, Repr

/-- The struct `VSTSPayload.Resource.PushedBy` (lines 72-76). -/
structure PushedByInfo where
  DisplayName : String := ""
  ID : String := ""
  UniqueName : String := ""
  deriving DecidableEq, Repr

/-- The struct `VSTSPayload.Resource` (lines 37-80). -/
structure ResourceInfo where
  Commits : List CommitRecord := []
  RefUpdates : List RefUpdate := []
  Repository : RepositoryInfo := {}
  PushedBy : PushedByInfo := {}
  PushID : Int := 0
  Date : String := ""
  URL : String := ""
  deriving DecidableEq, Repr

/-- The struct `VSTSPayload.ResourceContainers` (lines 82-92): three ids. -/
structure ResourceContainersInfo where
  CollectionID : String := ""
  AccountID : String := ""
  ProjectID : String := ""
  deriving DecidableEq, Repr

/-- The inbound event, `VSTSPayload` (lines 21-94).  The default value of every
field is Go's zero value, so `{}` is `VSTSPayload{}`. -/
structure VSTSPayload where
  SubscriptionID : String := ""
  NotificationID : Int := 0
  ID : String := ""
  EventType : String := ""
  PublisherID : String := ""
  Message : MessageBlock := {}
  DetailedMessage : MessageBlock := {}
  Resource : ResourceInfo := {}
  ResourceVersion : String := ""
  ResourceContainers : ResourceContainersInfo := {}
  CreatedDate : String := ""
  deriving DecidableEq, Repr

/-- The struct `BuildkitePayload.Author` (lines 100-103). -/
structure BuildAuthor where
  Name : String := ""
  Email : String := ""
  deriving DecidableEq, Repr

/-- The struct `BuildkitePayload.Env` (lines 104-106). -/
structure BuildEnv where
  MYENVVAR : String := ""
  deriving DecidableEq, Repr

/-- The struct `BuildkitePayload.MetaData` (lines 107-110). -/
structure BuildMetaData where
  SomeBuildData : String := ""
  OtherBuildData : Bool := false
  deriving DecidableEq, Repr

/-- The outbound build request, `BuildkitePayload` (lines 96-111); `{}` is
`BuildkitePayload{}`. -/
structure BuildkitePayload where
  Commit : String := ""
  Branch : String := ""
  Message : String := ""
  Author : BuildAuthor := {}
  Env : BuildEnv := {}
  MetaData : BuildMetaData := {}
  deriving DecidableEq, Repr

/-- An element of `BuildkiteCreateBuildResponse.Jobs` (lines 187-209), with the Go field
`Type` named `JobType`; the
`interface{}`-typed fields, which the handler never reads, are left out. -/
structure JobInfo where
  ID : String := ""
  JobType : String := ""
  Name : String := ""
  AgentQueryRules : List String := []
  State : String := ""
  BuildURL : String := ""
  WebURL : String := ""
  LogURL : String := ""
  RawLogURL : String := ""
  ArtifactsURL : String := ""
  Command : String := ""
  ArtifactPaths : String := ""
  CreatedAt : String := ""
  ScheduledAt : String := ""
  Retried : Bool := false
  deriving DecidableEq, Repr

/-- The downstream response, `BuildkiteCreateBuildResponse` (lines 113-210),
with its scalar top-level fields and its job list; the handler reads `Jobs`
only. -/
structure BuildkiteCreateBuildResponse where
  ID : String := ""
  URL : String := ""
  WebURL : String := ""
  Number : Int := 0
  State : String := ""
  Blocked : Bool := false
  Message : String := ""
  Commit : String := ""
  Branch : String := ""
  Source : String := ""
  Jobs : List JobInfo := []
  deriving DecidableEq, Repr

/-! ## The HTTP values the handler touches -/

/-- A header map, as the list of its (key, value) entries. -/
abbrev Header := List (String × String)

/-- The method `Header.Set`: replace the value stored under the key, or add the entry. -/
def Header.Set : Header → String → String → Header
  | [], key, value => [(key, value)]
  | (k, v) :: rest, key, value =>
    if k = key then (key, value) :: rest else (k, v) :: Header.Set rest key value

/-- The method `Header.Get`, with `none` for an absent key. -/
def Header.Get : Header → String → Option String
  | [], _ => none
  | (k, v) :: rest, key => if k = key then some v else Header.Get rest key

/-- The inbound `*http.Request`: its method, and what `ioutil.ReadAll(req.Body)`
returns (the bytes, or the read error). -/
structure Request where
  Method : String
  Body : Except String String
  deriving Repr

/-- An outbound `*http.Request` as built by `http.NewRequest`; `URL` is the parsed
`*url.URL`, given by its rendering `URL.String()`. -/
structure OutboundRequest where
  Method : String
  URL : String
  Header : Header := []
  Body : String
  deriving DecidableEq, Repr

/-- The downstream `*http.Response`: what `ioutil.ReadAll(buildkiteResp.Body)` returns. -/
structure Response where
  Body : Except String String
  deriving Repr

/-- The inbound `http.ResponseWriter`: `Status` is `none` until `WriteHeader` is
called; the server then answers with the default status (see `effectiveStatus`). -/
structure ResponseWriter where
  Header : Header := []
  Status : Option Nat := none
  Body : String := ""
  deriving DecidableEq, Repr

/-- The status the server sends: the one written, or 200 when the handler
returned without writing any. -/
def ResponseWriter.effectiveStatus (w : ResponseWriter) : Nat := w.Status.getD 200

/-- The constant `http.StatusMethodNotAllowed`. -/
def http.StatusMethodNotAllowed : Nat := 405

/-- The constant `http.StatusBadRequest`. -/
def http.StatusBadRequest : Nat := 400

/-- The function `http.Error`: plain-text content type, the status code, and the message
followed by a newline (`fmt.Fprintln`). -/
def http.Error (w : ResponseWriter) (error : String) (code : Nat) : ResponseWriter :=
  { Header := Header.Set (Header.Set w.Header "Content-Type" "text/plain; charset=utf-8")
      "X-Content-Type-Options" "nosniff"
    Status := some code
    Body := w.Body ++ error ++ "\n" }

/-- The standard-library calls that depend on the outside world or on a full
grammar; the handler is defined for every choice of them. -/
structure Externals where
  /-- The call `json.Unmarshal(reqBody, &payload)` (line 225): the decoded event or the error. -/
  unmarshalPayload : String → Except String VSTSPayload
  /-- The call `url.Parse(url)` inside `http.NewRequest`: the parsed URL, given by its
  rendering `URL.String()` (the scheme in lower case, the path escaped, ...), or the error.
  An error here is the one way `http.NewRequest("POST", ...)` fails. -/
  urlParse : String → Except String String
  /-- The call `client.Do(buildkiteReq)` (line 295): the response or the transport error. -/
  clientDo : OutboundRequest → Except String Response
  /-- The call `json.Unmarshal(body, &response)` (line 305); its error is discarded by the
  handler, so only the value left in `response` is kept. -/
  unmarshalResponse : String → BuildkiteCreateBuildResponse

/-- The function `http.NewRequest`: the request holds the URL that `url.Parse` returns, not
the string passed in; a nil request when the URL does not parse. -/
def http.NewRequest (ext : Externals) (method url body : String) : Option OutboundRequest :=
  match ext.urlParse url with
  | .ok parsed => some { Method := method, URL := parsed, Header := [], Body := body }
  | .error _ => none

/-! ## `strings.Split` -/

/-- The segments of a character list between occurrences of `sep`; never empty. -/
def splitChars (sep : Char) : List Char → List (List Char)
  | [] => [[]]
  | c :: cs =>
    if c = sep then [] :: splitChars sep cs
    else
      match splitChars sep cs with
      | [] => [[c]]
      | seg :: rest => (c :: seg) :: rest

/-- The function `strings.Split(s, sep)` for a one-character separator, the only use in the
source (`strings.Split(name, "/")`). -/
def strings.Split (s : String) (sep : Char) : List String :=
  (splitChars sep s.data).map String.mk

/-! ## `json.Marshal` of a `BuildkitePayload` -/

/-- Lower-case hexadecimal digit. -/
def json.hexDigit (n : Nat) : Char :=
  if n < 10 then Char.ofNat (48 + n) else Char.ofNat (87 + n)

/-- The escape of one character inside a JSON string, as `encoding/json` writes it
with HTML escaping on (the default of `json.Marshal`): backslash, double quote, the control
characters, `<`, `>`, `&`, U+2028 and U+2029 are escaped, every other character is copied.
Backspace and form feed are written in their short form, as Go 1.22 and later do. -/
def json.escapeChar (c : Char) : List Char :=
  if c = Char.ofNat 92 then [Char.ofNat 92, Char.ofNat 92]
  else if c = Char.ofNat 34 then [Char.ofNat 92, Char.ofNat 34]
  else if c = Char.ofNat 8 then [Char.ofNat 92, 'b']
  else if c = Char.ofNat 12 then [Char.ofNat 92, 'f']
  else if c = Char.ofNat 10 then [Char.ofNat 92, 'n']
  else if c = Char.ofNat 13 then [Char.ofNat 92, 'r']
  else if c = Char.ofNat 9 then [Char.ofNat 92, 't']
  else if c.toNat < 32 ∨ c = '<' ∨ c = '>' ∨ c = '&' then
    [Char.ofNat 92, 'u', '0', '0', json.hexDigit (c.toNat / 16), json.hexDigit (c.toNat % 16)]
  else if c.toNat = 8232 then [Char.ofNat 92, 'u', '2', '0', '2', '8']
  else if c.toNat = 8233 then [Char.ofNat 92, 'u', '2', '0', '2', '9']
  else [c]

/-- A JSON string literal. -/
def json.quote (s : String) : String :=
  "\"" ++ String.mk (s.data.flatMap json.escapeChar) ++ "\""

/-- A JSON boolean. -/
def json.bool (b : Bool) : String := if b then "true" else "false"

/-- The function `json.Marshal` at type `BuildkitePayload`: the fields in declaration order under
the keys of their struct tags (lines 96-111), without white space.  It returns no error
at this type. -/
def json.Marshal (p : BuildkitePayload) : String :=
  "\x7b\"commit\":" ++ json.quote p.Commit ++
  ",\"branch\":" ++ json.quote p.Branch ++
  ",\"message\":" ++ json.quote p.Message ++
  ",\"author\":\x7b\"name\":" ++ json.quote p.Author.Name ++
  ",\"email\":" ++ json.quote p.Author.Email ++ "\x7d" ++
  ",\"env\":\x7b\"MY_ENV_VAR\":" ++ json.quote p.Env.MYENVVAR ++ "\x7d" ++
  ",\"meta_data\":\x7b\"some build data\":" ++ json.quote p.MetaData.SomeBuildData ++
  ",\"other build data\":" ++ json.bool p.MetaData.OtherBuildData ++ "\x7d\x7d"

/-! ## The handler (`vstsHandler`, lines 212-308) -/

/-- What a Go panic carries. -/
inductive PanicValue where
  /-- Raised by `panic(err)`. -/
  | error (err : String)
  /-- Runtime error "index out of range [index] with length length", raised at a source line. -/
  | indexOutOfRange (line index length : Nat)
  /-- Runtime error "invalid memory address or nil pointer dereference", raised at a source line. -/
  | nilPointerDereference (line : Nat)
  deriving DecidableEq, Repr

/-- Everything one run of the handler does. -/
structure Outcome where
  /-- The inbound response writer after the run. -/
  resp : ResponseWriter := {}
  /-- The messages passed to `log.Printf` / `log.Println`, in order. -/
  logs : List String := []
  /-- The lines written by `fmt.Println`. -/
  stdout : List String := []
  /-- The value of the local `buildkitePayload` when `json.Marshal` is reached (line 281);
  `none` when the run stops before. -/
  built : Option BuildkitePayload := none
  /-- The requests handed to `client.Do`, in order. -/
  calls : List OutboundRequest := []
  /-- The panic that ended the run, if any. -/
  panic : Option PanicValue := none
  deriving DecidableEq, Repr

/-- The 40-character all-zero object id of line 247. -/
def zeroObjectID : String := "0000000000000000000000000000000000000000"

/-- Lines 277-306 of `vstsHandler`: fill in author and message, serialise, post to the
downstream endpoint, read the answer and print the first job's URL.  `logs` are the log
lines written so far and `buildkitePayload` is the payload with branch and commit set. -/
def vstsHandler.dispatch (ext : Externals) (cfg : Config) (logs : List String)
    (buildkitePayload : BuildkitePayload) (authorName authorEmail commitMessage : String) :
    Outcome :=
  let buildkitePayload : BuildkitePayload :=
    { buildkitePayload with
      Author := { buildkitePayload.Author with Name := authorName, Email := authorEmail }
      Message := commitMessage }
  -- `json.Marshal` returns no error at this type, so line 284 logs nothing
  let buildkitePayloadString := json.Marshal buildkitePayload
  let logs := logs ++ ["Firing off a build to buildkite: " ++ buildkitePayload.Author.Name ++ " "
    ++ buildkitePayload.Branch ++ " " ++ buildkitePayload.Commit]
  match http.NewRequest ext "POST" cfg.buildkiteURL buildkitePayloadString with
  | none =>
    { logs := logs, built := some buildkitePayload, panic := some (.nilPointerDereference 291) }
  | some newReq =>
    let buildkiteReq : OutboundRequest :=
      { newReq with
        Header := Header.Set
          (Header.Set newReq.Header "Authorization" ("Bearer " ++ cfg.buildkiteAuthToken))
          "Content-Type" "application/json" }
    match ext.clientDo buildkiteReq with
    | .error err =>
      { logs := logs, built := some buildkitePayload, calls := [buildkiteReq],
        panic := some (.error err) }
    | .ok buildkiteResp =>
      match buildkiteResp.Body with
      | .error err =>
        { logs := logs, built := some buildkitePayload, calls := [buildkiteReq],
          panic := some (.error err) }
      | .ok body =>
        let response := ext.unmarshalResponse body
        match response.Jobs[0]? with
        | none =>
          { logs := logs, built := some buildkitePayload, calls := [buildkiteReq],
            panic := some (.indexOutOfRange 306 0 response.Jobs.length) }
        | some job =>
          { logs := logs, built := some buildkitePayload, calls := [buildkiteReq],
            stdout := ["Build created:  " ++ job.WebURL] }

/-- The handler `vstsHandler` (lines 212-308). -/
def vstsHandler (ext : Externals) (cfg : Config) (req : Request) : Outcome :=
  if req.Method ≠ "POST" then
    { resp := http.Error {} "This endpoint doesn't support this request type"
        http.StatusMethodNotAllowed }
  else
    match req.Body with
    | .error err => { panic := some (.error err) }
    | .ok reqBody =>
      match ext.unmarshalPayload reqBody with
      | .error err => { panic := some (.error err) }
      | .ok payload =>
        if payload.EventType ≠ "git.push" then
          { logs := ["Unsupported event type: " ++ payload.EventType]
            resp := http.Error {} ("Event not supported: " ++ payload.EventType)
              http.StatusBadRequest }
        else
          let buildkitePayload : BuildkitePayload := {}
          -- `RefUpdates[0]` is read at lines 241, 247 and 248 from the same slice
          match payload.Resource.RefUpdates[0]? with
          | none =>
            { panic := some (.indexOutOfRange 241 0 payload.Resource.RefUpdates.length) }
          | some refUpdate =>
            let refsUpdatesArr := strings.Split refUpdate.Name '/'
            match refsUpdatesArr[1]? with
            | none => { panic := some (.indexOutOfRange 242 1 refsUpdatesArr.length) }
            | some gitObjectType =>
              match refsUpdatesArr[2]? with
              | none => { panic := some (.indexOutOfRange 243 2 refsUpdatesArr.length) }
              | some gitObjectName =>
                if gitObjectType = "heads" then
                  let buildkitePayload := { buildkitePayload with Branch := gitObjectName }
                  if refUpdate.NewObjectID ≠ zeroObjectID then
                    let buildkitePayload :=
                      { buildkitePayload with Commit := refUpdate.NewObjectID }
                    if payload.Resource.Commits.length = 0 then
                      vstsHandler.dispatch ext cfg
                        ["No commit data for branch. Using PushedBy data for build author information",
                          reqBody]
                        buildkitePayload
                        payload.Resource.PushedBy.DisplayName
                        payload.Resource.PushedBy.UniqueName
                        payload.DetailedMessage.Markdown
                    else
                      match payload.Resource.Commits[0]? with
                      | none =>
                        { panic := some
                            (.indexOutOfRange 272 0 payload.Resource.Commits.length) }
                      | some commit =>
                        vstsHandler.dispatch ext cfg [] buildkitePayload
                          commit.Author.Name commit.Author.Email commit.Comment
                  else
                    { logs := ["Branch deletion, ignoring."] }
                else
                  { logs := ["Tag pushed, ignoring."] }

/-! ## Concrete inputs -/

/-- The values of `url.Parse` on the URLs used below: `https://ci.example/builds` parses to
itself, `HTTPS://ci.example/builds` parses to the same URL with its scheme in lower case,
and every other string is rejected, as `url.Parse` rejects `http://[::1`. -/
def sampleUrlParse (url : String) : Except String String :=
  if url = "https://ci.example/builds" then .ok "https://ci.example/builds"
  else if url = "HTTPS://ci.example/builds" then .ok "https://ci.example/builds"
  else .error "missing ']' in host"

/-- A library instance: the body `"push"` decodes to the given event and every other body is
rejected; URLs parse as `sampleUrlParse` says; the downstream answers every request with the
body `"ok"`, which decodes to a response with the given jobs. -/
def sampleExternals (event : VSTSPayload) (jobs : List JobInfo) : Externals where
  unmarshalPayload := fun body =>
    if body = "push" then .ok event else .error "invalid character in inbound body"
  urlParse := sampleUrlParse
  clientDo := fun _ => .ok { Body := .ok "ok" }
  unmarshalResponse := fun body => if body = "ok" then { Jobs := jobs } else {}

/-- A configuration. -/
def sampleConfig : Config :=
  { buildkiteAuthToken := "tok", buildkiteURL := "https://ci.example/builds" }

/-- A push event with the given ref name, new object id and commit records, pushed by Bob. -/
def pushEvent (name newObjectID : String) (commits : List CommitRecord) : VSTSPayload :=
  { EventType := "git.push"
    Message := { Text := "m-text", Markdown := "m-markdown" }
    DetailedMessage := { Text := "d-text", Markdown := "merged" }
    Resource :=
      { Commits := commits
        RefUpdates := [{ Name := name, NewObjectID := newObjectID }]
        PushedBy := { DisplayName := "Bob", UniqueName := "bob@x.com" } } }

/-- A commit record by Ada. -/
def adaCommit : CommitRecord :=
  { Author := { Name := "Ada", Email := "ada@x.com" }, Comment := "fix bug" }

/-- A second commit record, by Eve. -/
def eveCommit : CommitRecord :=
  { Author := { Name := "Eve", Email := "eve@x.com" }, Comment := "later" }

/-- A 40-character object id. -/
def sampleObjectID : String := "abc123abc123abc123abc123abc123abc123abcd"

/-- A job with a viewable URL. -/
def sampleJob : JobInfo := { WebURL := "https://ci.example/jobs/1" }

/-- The inbound POST carrying the body `"push"`. -/
def postPush : Request := { Method := "POST", Body := .ok "push" }

/-! ## Lemmas on the dispatch step -/

/-- The payload that the dispatch step serialises. -/
theorem dispatch_built (ext : Externals) (cfg : Config) (logs : List String)
    (bp : BuildkitePayload) (a e m : String) :
    (vstsHandler.dispatch ext cfg logs bp a e m).built =
      some { bp with Author := { Name := a, Email := e }, Message := m } := by
  unfold vstsHandler.dispatch
  simp only []
  split
  · rfl
  · split
    · rfl
    · split
      · rfl
      · split <;> rfl

/-- Every request that the dispatch step hands to `client.Do` is the POST to the parse of
the configured URL with the two headers and the serialised payload. -/
theorem dispatch_calls (ext : Externals) (cfg : Config) (logs : List String)
    (bp : BuildkitePayload) (a e m : String) (r : OutboundRequest)
    (hr : r ∈ (vstsHandler.dispatch ext cfg logs bp a e m).calls) :
    ∃ parsed, ext.urlParse cfg.buildkiteURL = .ok parsed ∧
      r = { Method := "POST", URL := parsed,
            Header := [("Authorization", "Bearer " ++ cfg.buildkiteAuthToken),
              ("Content-Type", "application/json")],
            Body := json.Marshal
              { bp with Author := { Name := a, Email := e }, Message := m } } := by
  unfold vstsHandler.dispatch at hr
  simp only [http.NewRequest] at hr
  rcases hu : ext.urlParse cfg.buildkiteURL with err | parsed
  swap
  · refine ⟨parsed, rfl, ?_⟩
    simp only [hu] at hr
    have hset : Header.Set (Header.Set [] "Authorization" ("Bearer " ++ cfg.buildkiteAuthToken))
        "Content-Type" "application/json" =
        [("Authorization", "Bearer " ++ cfg.buildkiteAuthToken),
          ("Content-Type", "application/json")] := by
      simp [Header.Set]
    rw [hset] at hr
    split at hr
    · simpa using hr
    · split at hr
      · simpa using hr
      · split at hr <;> simpa using hr
  · simp [hu] at hr

/-- A branch push with commit records reaches the dispatch step with the first record's
author and comment. -/
theorem vstsHandler_of_commits (ext : Externals) (cfg : Config) (req : Request)
    (raw : String) (p : VSTSPayload) (ru : RefUpdate) (branch : String)
    (c : CommitRecord) (cs : List CommitRecord)
    (hm : req.Method = "POST") (hb : req.Body = .ok raw)
    (hp : ext.unmarshalPayload raw = .ok p) (he : p.EventType = "git.push")
    (hr : p.Resource.RefUpdates[0]? = some ru)
    (hk : (strings.Split ru.Name '/')[1]? = some "heads")
    (hbr : (strings.Split ru.Name '/')[2]? = some branch)
    (hn : ru.NewObjectID ≠ zeroObjectID)
    (hc : p.Resource.Commits = c :: cs) :
    vstsHandler ext cfg req =
      vstsHandler.dispatch ext cfg [] { Branch := branch, Commit := ru.NewObjectID }
        c.Author.Name c.Author.Email c.Comment := by
  unfold vstsHandler
  simp [hm, hb, hp, he, hr, hk, hbr, hn, hc]

/-- A branch push without commit records reaches the dispatch step with the pushed-by
identity and the detailed markdown message. -/
theorem vstsHandler_of_no_commits (ext : Externals) (cfg : Config) (req : Request)
    (raw : String) (p : VSTSPayload) (ru : RefUpdate) (branch : String)
    (hm : req.Method = "POST") (hb : req.Body = .ok raw)
    (hp : ext.unmarshalPayload raw = .ok p) (he : p.EventType = "git.push")
    (hr : p.Resource.RefUpdates[0]? = some ru)
    (hk : (strings.Split ru.Name '/')[1]? = some "heads")
    (hbr : (strings.Split ru.Name '/')[2]? = some branch)
    (hn : ru.NewObjectID ≠ zeroObjectID)
    (hc : p.Resource.Commits = []) :
    vstsHandler ext cfg req =
      vstsHandler.dispatch ext cfg
        ["No commit data for branch. Using PushedBy data for build author information", raw]
        { Branch := branch, Commit := ru.NewObjectID }
        p.Resource.PushedBy.DisplayName p.Resource.PushedBy.UniqueName
        p.DetailedMessage.Markdown := by
  unfold vstsHandler
  simp [hm, hb, hp, he, hr, hk, hbr, hn, hc]


/-- The only index panic of the dispatch step is the one of line 306. -/
theorem dispatch_panic_index (ext : Externals) (cfg : Config) (logs : List String)
    (bp : BuildkitePayload) (a e m : String) (line i n : Nat)
    (h : (vstsHandler.dispatch ext cfg logs bp a e m).panic =
      some (.indexOutOfRange line i n)) : line = 306 := by
  unfold vstsHandler.dispatch at h
  simp only [] at h
  split at h
  · simp at h
  · split at h
    · simp at h
    · split at h
      · simp at h
      · split at h
        · simp at h
          exact h.1.symm
        · simp at h

/-- Once a request was handed to `client.Do` and answered with a readable body, the dispatch
step panics exactly when the decoded response has no job, at line 306. -/
theorem dispatch_panic_of_response (ext : Externals) (cfg : Config) (logs : List String)
    (bp : BuildkitePayload) (a e m : String) (r : OutboundRequest) (resp : Response)
    (body : String)
    (hr : r ∈ (vstsHandler.dispatch ext cfg logs bp a e m).calls)
    (hdo : ext.clientDo r = .ok resp) (hbody : resp.Body = .ok body) :
    (vstsHandler.dispatch ext cfg logs bp a e m).panic =
      if (ext.unmarshalResponse body).Jobs = [] then some (.indexOutOfRange 306 0 0)
      else none := by
  obtain ⟨parsed, hu, hreq⟩ := dispatch_calls ext cfg logs bp a e m r hr
  by_cases hparsed : ext.urlParse cfg.buildkiteURL = .ok parsed
  · rw [hreq] at hdo
    unfold vstsHandler.dispatch
    simp only [http.NewRequest, hu]
    have hset : Header.Set (Header.Set [] "Authorization" ("Bearer " ++ cfg.buildkiteAuthToken))
        "Content-Type" "application/json" =
        [("Authorization", "Bearer " ++ cfg.buildkiteAuthToken),
          ("Content-Type", "application/json")] := by
      simp [Header.Set]
    rw [hset, hdo]
    simp only [hbody]
    rcases hj : (ext.unmarshalResponse body).Jobs with _ | ⟨j, js⟩
    · simp
    · simp
  · exact absurd hu hparsed

/-- The runs of the handler on a POST whose body parses to a `git.push` event: the three
index panics of the ref classification, the two silent drops, or the dispatch step. -/
theorem vstsHandler_push_cases (ext : Externals) (cfg : Config) (req : Request)
    (raw : String) (p : VSTSPayload)
    (hm : req.Method = "POST") (hb : req.Body = .ok raw)
    (hp : ext.unmarshalPayload raw = .ok p) (he : p.EventType = "git.push") :
    (p.Resource.RefUpdates[0]? = none ∧
      vstsHandler ext cfg req =
        { panic := some (.indexOutOfRange 241 0 p.Resource.RefUpdates.length) }) ∨
    (∃ ru, p.Resource.RefUpdates[0]? = some ru ∧ (strings.Split ru.Name '/').length < 2 ∧
      vstsHandler ext cfg req =
        { panic := some (.indexOutOfRange 242 1 (strings.Split ru.Name '/').length) }) ∨
    (∃ ru, p.Resource.RefUpdates[0]? = some ru ∧ (strings.Split ru.Name '/').length = 2 ∧
      vstsHandler ext cfg req =
        { panic := some (.indexOutOfRange 243 2 (strings.Split ru.Name '/').length) }) ∨
    (∃ ru, p.Resource.RefUpdates[0]? = some ru ∧ 3 ≤ (strings.Split ru.Name '/').length ∧
      (vstsHandler ext cfg req = { logs := ["Tag pushed, ignoring."] } ∨
        vstsHandler ext cfg req = { logs := ["Branch deletion, ignoring."] } ∨
        ∃ logs branch a e m, vstsHandler ext cfg req =
          vstsHandler.dispatch ext cfg logs { Branch := branch, Commit := ru.NewObjectID }
            a e m)) := by
  rcases hr : p.Resource.RefUpdates[0]? with _ | ru
  · left
    refine ⟨rfl, ?_⟩
    unfold vstsHandler
    simp [hm, hb, hp, he, hr]
  right
  rcases h1 : (strings.Split ru.Name '/')[1]? with _ | kind
  · left
    refine ⟨ru, rfl, ?_, ?_⟩
    · have := List.getElem?_eq_none_iff.mp h1
      omega
    · unfold vstsHandler
      simp [hm, hb, hp, he, hr, h1]
  right
  have hlen1 := (List.getElem?_eq_some.mp h1).1
  rcases h2 : (strings.Split ru.Name '/')[2]? with _ | name
  · left
    refine ⟨ru, rfl, ?_, ?_⟩
    · have := List.getElem?_eq_none_iff.mp h2
      omega
    · unfold vstsHandler
      simp [hm, hb, hp, he, hr, h1, h2]
  right
  have hlen2 := (List.getElem?_eq_some.mp h2).1
  refine ⟨ru, rfl, by omega, ?_⟩
  by_cases hk : kind = "heads"
  swap
  · left
    unfold vstsHandler
    simp [hm, hb, hp, he, hr, h1, h2, hk]
  right
  by_cases hn : ru.NewObjectID = zeroObjectID
  · left
    unfold vstsHandler
    simp [hm, hb, hp, he, hr, h1, h2, hk, hn]
  right
  rw [hk] at h1
  rcases hc : p.Resource.Commits with _ | ⟨c, cs⟩
  · exact ⟨_, _, _, _, _,
      vstsHandler_of_no_commits ext cfg req raw p ru name hm hb hp he hr h1 h2 hn hc⟩
  · exact ⟨_, _, _, _, _,
      vstsHandler_of_commits ext cfg req raw p ru name c cs hm hb hp he hr h1 h2 hn hc⟩

/-- Every run of the handler either stops before `json.Marshal`, handing nothing to
`client.Do` and raising no index panic beyond line 243, or is a run of the dispatch step on
a payload with only branch and commit set. -/
theorem vstsHandler_cases (ext : Externals) (cfg : Config) (req : Request) :
    ((vstsHandler ext cfg req).calls = [] ∧ (vstsHandler ext cfg req).built = none ∧
      ∀ line i n, (vstsHandler ext cfg req).panic = some (.indexOutOfRange line i n) →
        line ≤ 243) ∨
    ∃ logs branch commit a e m, vstsHandler ext cfg req =
      vstsHandler.dispatch ext cfg logs { Branch := branch, Commit := commit } a e m := by
  by_cases hm : req.Method = "POST"
  swap
  · left
    unfold vstsHandler
    simp [hm]
  rcases hb : req.Body with err | raw
  · left
    unfold vstsHandler
    simp [hm, hb]
  rcases hp : ext.unmarshalPayload raw with err | p
  · left
    unfold vstsHandler
    simp [hm, hb, hp]
  by_cases he : p.EventType = "git.push"
  swap
  · left
    unfold vstsHandler
    simp [hm, hb, hp, he]
  rcases vstsHandler_push_cases ext cfg req raw p hm hb hp he with
    ⟨_, h⟩ | ⟨ru, _, _, h⟩ | ⟨ru, _, _, h⟩ | ⟨ru, _, _, h | h | h⟩
  · left
    rw [h]
    refine ⟨rfl, rfl, ?_⟩
    intro line i n hpanic
    simp at hpanic
    omega
  · left
    rw [h]
    refine ⟨rfl, rfl, ?_⟩
    intro line i n hpanic
    simp at hpanic
    omega
  · left
    rw [h]
    refine ⟨rfl, rfl, ?_⟩
    intro line i n hpanic
    simp at hpanic
    omega
  · left
    rw [h]
    exact ⟨rfl, rfl, by intro line i n hpanic; simp at hpanic⟩
  · left
    rw [h]
    exact ⟨rfl, rfl, by intro line i n hpanic; simp at hpanic⟩
  · right
    obtain ⟨logs, branch, a, e, m, hd⟩ := h
    exact ⟨logs, branch, ru.NewObjectID, a, e, m, hd⟩

/-! ## The claims -/

/-- C1: a POST whose body parses to a `git.push` event, whose first ref-update name has at
least three segments with segment 1 equal to `heads`, whose new object id is not the
all-zero id and which has at least one commit record, reaches `json.Marshal` with
branch = segment 2, commit = the new object id, author name and email = those of the FIRST
commit record and message = its comment, and every request handed to `client.Do` carries
the serialisation of that payload; segment 2 of `refs/heads/main` is `main` and segment 2 of
`refs/heads/feature/x` is `feature`. -/
theorem C1_branch_push_with_commits (ext : Externals) (cfg : Config) (req : Request)
    (raw : String) (p : VSTSPayload) (ru : RefUpdate) (branch : String)
    (c : CommitRecord) (cs : List CommitRecord)
    (hm : req.Method = "POST") (hb : req.Body = .ok raw)
    (hp : ext.unmarshalPayload raw = .ok p) (he : p.EventType = "git.push")
    (hr : p.Resource.RefUpdates[0]? = some ru)
    (hk : (strings.Split ru.Name '/')[1]? = some "heads")
    (hbr : (strings.Split ru.Name '/')[2]? = some branch)
    (hn : ru.NewObjectID ≠ zeroObjectID)
    (hc : p.Resource.Commits = c :: cs) :
    (vstsHandler ext cfg req).built =
        some { Branch := branch, Commit := ru.NewObjectID, Message := c.Comment,
               Author := { Name := c.Author.Name, Email := c.Author.Email } } ∧
      (∀ r ∈ (vstsHandler ext cfg req).calls,
        r.Body = json.Marshal
          { Branch := branch, Commit := ru.NewObjectID, Message := c.Comment,
            Author := { Name := c.Author.Name, Email := c.Author.Email } }) ∧
      (strings.Split "refs/heads/main" '/')[2]? = some "main" ∧
      (strings.Split "refs/heads/feature/x" '/')[2]? = some "feature" := by
  rw [vstsHandler_of_commits ext cfg req raw p ru branch c cs hm hb hp he hr hk hbr hn hc]
  refine ⟨dispatch_built _ _ _ _ _ _ _, ?_, by decide, by decide⟩
  intro r hmem
  obtain ⟨parsed, _, hreq⟩ := dispatch_calls _ _ _ _ _ _ _ r hmem
  rw [hreq]

/-- Witness of C1: `refs/heads/feature/x` pushed with two commit records, Ada's first. -/
theorem C1_branch_push_with_commits_witness :
    (vstsHandler (sampleExternals (pushEvent "refs/heads/feature/x" sampleObjectID
        [adaCommit, eveCommit]) [sampleJob]) sampleConfig postPush).built =
      some { Branch := "feature", Commit := sampleObjectID, Message := "fix bug",
             Author := { Name := "Ada", Email := "ada@x.com" } } :=
  (C1_branch_push_with_commits
    (sampleExternals (pushEvent "refs/heads/feature/x" sampleObjectID [adaCommit, eveCommit])
      [sampleJob])
    sampleConfig postPush "push"
    (pushEvent "refs/heads/feature/x" sampleObjectID [adaCommit, eveCommit])
    ({ Name := "refs/heads/feature/x", NewObjectID := sampleObjectID } : RefUpdate) "feature"
    adaCommit [eveCommit]
    (by decide) (by rfl) (by rfl) (by decide) (by rfl) (by decide) (by decide) (by decide)
    (by rfl)).1

/-- C2 as stated fails: the name `refs/heads` has segment 1 equal to `heads`, the new object
id is not the all-zero id and there is no commit record, yet the handler panics at line 243
and builds no request. -/
theorem C2_counterexample :
    postPush.Method = "POST" ∧
    (sampleExternals (pushEvent "refs/heads" sampleObjectID []) [sampleJob]).unmarshalPayload
      "push" = .ok (pushEvent "refs/heads" sampleObjectID []) ∧
    (pushEvent "refs/heads" sampleObjectID []).EventType = "git.push" ∧
    (pushEvent "refs/heads" sampleObjectID []).Resource.RefUpdates[0]? =
      some { Name := "refs/heads", NewObjectID := sampleObjectID } ∧
    (strings.Split "refs/heads" '/')[1]? = some "heads" ∧
    sampleObjectID ≠ zeroObjectID ∧
    (pushEvent "refs/heads" sampleObjectID []).Resource.Commits = [] ∧
    (vstsHandler (sampleExternals (pushEvent "refs/heads" sampleObjectID []) [sampleJob])
      sampleConfig postPush).built = none ∧
    (vstsHandler (sampleExternals (pushEvent "refs/heads" sampleObjectID []) [sampleJob])
      sampleConfig postPush).calls = [] ∧
    (vstsHandler (sampleExternals (pushEvent "refs/heads" sampleObjectID []) [sampleJob])
      sampleConfig postPush).panic = some (.indexOutOfRange 243 2 2) := by
  refine ⟨by decide, by rfl, by decide, by rfl, by decide, by decide, by rfl, by decide,
    by decide, by decide⟩

/-- C2 (amended): a POST whose body parses to a `git.push` event, whose first ref-update name
has at least three segments with segment 1 equal to `heads`, whose new object id is not the
all-zero id and which has zero commit records, reaches `json.Marshal` with author name =
`resource.pushedBy.displayName`, author email = `resource.pushedBy.uniqueName`, message =
`detailedMessage.markdown`, branch = segment 2 and commit = the new object id, and every
request handed to `client.Do` carries the serialisation of that payload. -/
theorem C2_branch_push_without_commits (ext : Externals) (cfg : Config) (req : Request)
    (raw : String) (p : VSTSPayload) (ru : RefUpdate) (branch : String)
    (hm : req.Method = "POST") (hb : req.Body = .ok raw)
    (hp : ext.unmarshalPayload raw = .ok p) (he : p.EventType = "git.push")
    (hr : p.Resource.RefUpdates[0]? = some ru)
    (hk : (strings.Split ru.Name '/')[1]? = some "heads")
    (hbr : (strings.Split ru.Name '/')[2]? = some branch)
    (hn : ru.NewObjectID ≠ zeroObjectID)
    (hc : p.Resource.Commits = []) :
    (vstsHandler ext cfg req).built =
        some { Branch := branch, Commit := ru.NewObjectID,
               Message := p.DetailedMessage.Markdown,
               Author := { Name := p.Resource.PushedBy.DisplayName,
                           Email := p.Resource.PushedBy.UniqueName } } ∧
      (∀ r ∈ (vstsHandler ext cfg req).calls,
        r.Body = json.Marshal
          { Branch := branch, Commit := ru.NewObjectID,
            Message := p.DetailedMessage.Markdown,
            Author := { Name := p.Resource.PushedBy.DisplayName,
                        Email := p.Resource.PushedBy.UniqueName } }) := by
  rw [vstsHandler_of_no_commits ext cfg req raw p ru branch hm hb hp he hr hk hbr hn hc]
  refine ⟨dispatch_built _ _ _ _ _ _ _, ?_⟩
  intro r hmem
  obtain ⟨parsed, _, hreq⟩ := dispatch_calls _ _ _ _ _ _ _ r hmem
  rw [hreq]

/-- Witness of C2 (amended): `refs/heads/main` pushed by Bob without commit records; the
message is `detailedMessage.markdown`, which differs from `message.markdown` and from
`detailedMessage.text` in this event. -/
theorem C2_branch_push_without_commits_witness :
    (vstsHandler (sampleExternals (pushEvent "refs/heads/main" sampleObjectID [])
        [sampleJob]) sampleConfig postPush).built =
      some { Branch := "main", Commit := sampleObjectID, Message := "merged",
             Author := { Name := "Bob", Email := "bob@x.com" } } :=
  (C2_branch_push_without_commits
    (sampleExternals (pushEvent "refs/heads/main" sampleObjectID []) [sampleJob])
    sampleConfig postPush "push" (pushEvent "refs/heads/main" sampleObjectID [])
    ({ Name := "refs/heads/main", NewObjectID := sampleObjectID } : RefUpdate) "main"
    (by decide) (by rfl) (by rfl) (by decide) (by rfl) (by decide) (by decide) (by decide)
    (by rfl)).1


/-- C3: if the handler hands a request to `client.Do`, then the inbound request is a POST
whose body parses to an event of type `git.push`, whose first ref-update name has segment 1
equal to `heads` and whose first ref-update new object id is not the 40-character all-zero
id; so a non-POST, a non-push event, a non-heads ref kind and a branch deletion make no
outbound call. -/
theorem C3_outbound_only_for_branch_push (ext : Externals) (cfg : Config) (req : Request)
    (h : (vstsHandler ext cfg req).calls ≠ []) :
    req.Method = "POST" ∧
      ∃ raw p ru, req.Body = .ok raw ∧ ext.unmarshalPayload raw = .ok p ∧
        p.EventType = "git.push" ∧ p.Resource.RefUpdates[0]? = some ru ∧
        (strings.Split ru.Name '/')[1]? = some "heads" ∧ ru.NewObjectID ≠ zeroObjectID := by
  unfold vstsHandler at h
  by_cases hm : req.Method = "POST"
  swap
  · simp [hm] at h
  refine ⟨hm, ?_⟩
  rcases hb : req.Body with err | raw
  · simp [hm, hb] at h
  rcases hp : ext.unmarshalPayload raw with err | p
  · simp [hm, hb, hp] at h
  by_cases he : p.EventType = "git.push"
  swap
  · simp [hm, hb, hp, he] at h
  rcases hr : p.Resource.RefUpdates[0]? with _ | ru
  · simp [hm, hb, hp, he, hr] at h
  rcases h1 : (strings.Split ru.Name '/')[1]? with _ | kind
  · simp [hm, hb, hp, he, hr, h1] at h
  rcases h2 : (strings.Split ru.Name '/')[2]? with _ | name
  · simp [hm, hb, hp, he, hr, h1, h2] at h
  by_cases hk : kind = "heads"
  swap
  · simp [hm, hb, hp, he, hr, h1, h2, hk] at h
  by_cases hn : ru.NewObjectID = zeroObjectID
  · simp [hm, hb, hp, he, hr, h1, h2, hk, hn] at h
  exact ⟨raw, p, ru, rfl, hp, he, hr, by rw [h1, hk], hn⟩

/-- Witness of C3: the push of `refs/heads/main` with one commit makes an outbound call. -/
theorem C3_outbound_only_for_branch_push_witness :
    postPush.Method = "POST" ∧
      ∃ raw p ru, postPush.Body = .ok raw ∧
        (sampleExternals (pushEvent "refs/heads/main" sampleObjectID [adaCommit])
          [sampleJob]).unmarshalPayload raw = .ok p ∧
        p.EventType = "git.push" ∧ p.Resource.RefUpdates[0]? = some ru ∧
        (strings.Split ru.Name '/')[1]? = some "heads" ∧ ru.NewObjectID ≠ zeroObjectID :=
  C3_outbound_only_for_branch_push
    (sampleExternals (pushEvent "refs/heads/main" sampleObjectID [adaCommit]) [sampleJob])
    sampleConfig postPush (by decide)


/-- C5: a POST whose body parses to an event whose type is not `git.push` is answered with
status 400 and the plain-text body `Event not supported: ` followed by the event type (and
the newline that `http.Error` appends); nothing is handed to `client.Do` and the handler
does not panic, whatever the ref-update and commit records of the event. -/
theorem C5_unsupported_event_type (ext : Externals) (cfg : Config) (req : Request)
    (raw : String) (p : VSTSPayload)
    (hm : req.Method = "POST") (hb : req.Body = .ok raw)
    (hp : ext.unmarshalPayload raw = .ok p) (he : p.EventType ≠ "git.push") :
    (vstsHandler ext cfg req).resp.Status = some 400 ∧
      (vstsHandler ext cfg req).resp.effectiveStatus = 400 ∧
      (vstsHandler ext cfg req).resp.Body = "Event not supported: " ++ p.EventType ++ "\n" ∧
      Header.Get (vstsHandler ext cfg req).resp.Header "Content-Type" =
        some "text/plain; charset=utf-8" ∧
      (vstsHandler ext cfg req).calls = [] ∧
      (vstsHandler ext cfg req).built = none ∧
      (vstsHandler ext cfg req).panic = none := by
  unfold vstsHandler
  simp [hm, hb, hp, he, http.Error, http.StatusBadRequest, Header.Set, Header.Get,
    ResponseWriter.effectiveStatus]

/-- Witness of C5: an event of type `git.pullrequest.created` without ref-update and commit
records. -/
theorem C5_unsupported_event_type_witness :
    (vstsHandler (sampleExternals { EventType := "git.pullrequest.created" } [])
      sampleConfig postPush).resp.Status = some 400 :=
  (C5_unsupported_event_type (sampleExternals { EventType := "git.pullrequest.created" } [])
    sampleConfig postPush "push" { EventType := "git.pullrequest.created" }
    (by decide) (by rfl) (by rfl) (by decide)).1

/-- C6: a request whose method is not POST is answered with status 405 and nothing is handed
to `client.Do`; the outcome is one fixed value, the same for every body (readable or not,
well-formed or not) and every behaviour of the library, so neither is consulted. -/
theorem C6_method_not_allowed (ext : Externals) (cfg : Config) (req : Request)
    (hm : req.Method ≠ "POST") :
    vstsHandler ext cfg req =
        { resp := { Header := [("Content-Type", "text/plain; charset=utf-8"),
                      ("X-Content-Type-Options", "nosniff")],
                    Status := some 405,
                    Body := "This endpoint doesn't support this request type\n" } } ∧
      (vstsHandler ext cfg req).resp.Status = some 405 ∧
      (vstsHandler ext cfg req).resp.effectiveStatus = 405 ∧
      (vstsHandler ext cfg req).calls = [] ∧
      (vstsHandler ext cfg req).panic = none := by
  have h : vstsHandler ext cfg req =
      { resp := { Header := [("Content-Type", "text/plain; charset=utf-8"),
                    ("X-Content-Type-Options", "nosniff")],
                  Status := some 405,
                  Body := "This endpoint doesn't support this request type\n" } } := by
    unfold vstsHandler
    rw [if_pos hm]
    decide
  rw [h]
  exact ⟨rfl, rfl, rfl, rfl, rfl⟩

/-- Witness of C6: a GET whose body cannot even be read. -/
theorem C6_method_not_allowed_witness :
    (vstsHandler (sampleExternals {} []) sampleConfig
      { Method := "GET", Body := .error "unexpected EOF" }).resp.Status = some 405 :=
  (C6_method_not_allowed (sampleExternals {} []) sampleConfig
    { Method := "GET", Body := .error "unexpected EOF" } (by decide)).2.1


/-- C7 as stated fails: the name `refs/tags` has segment 1 equal to `tags`, yet the handler
does not return but panics at line 243 (there is no segment 2). -/
theorem C7_counterexample :
    postPush.Method = "POST" ∧
    (sampleExternals (pushEvent "refs/tags" sampleObjectID []) [sampleJob]).unmarshalPayload
      "push" = .ok (pushEvent "refs/tags" sampleObjectID []) ∧
    (pushEvent "refs/tags" sampleObjectID []).EventType = "git.push" ∧
    (pushEvent "refs/tags" sampleObjectID []).Resource.RefUpdates[0]? =
      some { Name := "refs/tags", NewObjectID := sampleObjectID } ∧
    (strings.Split "refs/tags" '/')[1]? = some "tags" ∧
    (vstsHandler (sampleExternals (pushEvent "refs/tags" sampleObjectID []) [sampleJob])
      sampleConfig postPush).panic = some (.indexOutOfRange 243 2 2) := by
  refine ⟨by decide, by rfl, by decide, by rfl, by decide, by decide⟩

/-- C7 (amended): a POST whose body parses to a `git.push` event whose first ref-update name
has at least three segments with segment 1 equal to `tags` is dropped silently, whatever the
new object id and the commit records: the handler only logs `Tag pushed, ignoring.`, hands
nothing to `client.Do`, does not panic and leaves the inbound response untouched, so the
status sent is the default 200. -/
theorem C7_tag_push_dropped (ext : Externals) (cfg : Config) (req : Request)
    (raw : String) (p : VSTSPayload) (ru : RefUpdate) (name : String)
    (hm : req.Method = "POST") (hb : req.Body = .ok raw)
    (hp : ext.unmarshalPayload raw = .ok p) (he : p.EventType = "git.push")
    (hr : p.Resource.RefUpdates[0]? = some ru)
    (hk : (strings.Split ru.Name '/')[1]? = some "tags")
    (h2 : (strings.Split ru.Name '/')[2]? = some name) :
    vstsHandler ext cfg req = { logs := ["Tag pushed, ignoring."] } ∧
      (vstsHandler ext cfg req).calls = [] ∧
      (vstsHandler ext cfg req).panic = none ∧
      (vstsHandler ext cfg req).resp = {} ∧
      (vstsHandler ext cfg req).resp.effectiveStatus = 200 := by
  have h : vstsHandler ext cfg req = { logs := ["Tag pushed, ignoring."] } := by
    unfold vstsHandler
    simp [hm, hb, hp, he, hr, hk, h2]
  rw [h]
  exact ⟨rfl, rfl, rfl, rfl, rfl⟩

/-- Witness of C7 (amended): `refs/tags/v1.0` pushed with a commit record. -/
theorem C7_tag_push_dropped_witness :
    vstsHandler (sampleExternals (pushEvent "refs/tags/v1.0" sampleObjectID [adaCommit])
      [sampleJob]) sampleConfig postPush = { logs := ["Tag pushed, ignoring."] } :=
  (C7_tag_push_dropped
    (sampleExternals (pushEvent "refs/tags/v1.0" sampleObjectID [adaCommit]) [sampleJob])
    sampleConfig postPush "push" (pushEvent "refs/tags/v1.0" sampleObjectID [adaCommit])
    ({ Name := "refs/tags/v1.0", NewObjectID := sampleObjectID } : RefUpdate) "v1.0"
    (by decide) (by rfl) (by rfl) (by decide) (by rfl) (by decide) (by decide)).1

/-- C8 as stated fails: for a POST whose body does not parse the handler writes no status
(so no 400) and no body to the inbound response, and it panics with the decoding error. -/
theorem C8_counterexample :
    (sampleExternals {} []).unmarshalPayload "not json" =
      .error "invalid character in inbound body" ∧
    (vstsHandler (sampleExternals {} []) sampleConfig
      { Method := "POST", Body := .ok "not json" }).resp.Status = none ∧
    (vstsHandler (sampleExternals {} []) sampleConfig
      { Method := "POST", Body := .ok "not json" }).resp.Body = "" ∧
    (vstsHandler (sampleExternals {} []) sampleConfig
      { Method := "POST", Body := .ok "not json" }).panic =
      some (.error "invalid character in inbound body") := by
  refine ⟨by rfl, by decide, by decide, by decide⟩

/-- C8 (amended): for a POST whose body does not parse the handler panics with the error of
`json.Unmarshal`; before that it writes nothing to the inbound response, logs nothing and
hands nothing to `client.Do`. -/
theorem C8_malformed_body_panics (ext : Externals) (cfg : Config) (req : Request)
    (raw err : String)
    (hm : req.Method = "POST") (hb : req.Body = .ok raw)
    (hp : ext.unmarshalPayload raw = .error err) :
    vstsHandler ext cfg req = { panic := some (.error err) } ∧
      (vstsHandler ext cfg req).panic = some (.error err) ∧
      (vstsHandler ext cfg req).resp = {} ∧
      (vstsHandler ext cfg req).calls = [] := by
  have h : vstsHandler ext cfg req = { panic := some (.error err) } := by
    unfold vstsHandler
    simp [hm, hb, hp]
  rw [h]
  exact ⟨rfl, rfl, rfl, rfl⟩

/-- Witness of C8 (amended): the body `not json`. -/
theorem C8_malformed_body_panics_witness :
    (vstsHandler (sampleExternals {} []) sampleConfig
      { Method := "POST", Body := .ok "not json" }).calls = [] :=
  (C8_malformed_body_panics (sampleExternals {} []) sampleConfig
    { Method := "POST", Body := .ok "not json" } "not json"
    "invalid character in inbound body" (by decide) (by rfl) (by rfl)).2.2.2


/-- C9: on a POST whose body parses to a `git.push` event the ref classification
(`RefUpdates[0]`, segments 1 and 2; lines 241-243) raises no index panic exactly when the
event has a first ref-update record whose name has at least three segments, and the handler
then ends in a silent drop or reaches the dispatch step; when moreover a request was handed
to `client.Do` and its response body decodes to at least one job, the handler ends without
any panic (with no job it panics at line 306); and in no run at all does `Commits[0]`
(line 272) index out of range. -/
theorem C9_indexing_safe (ext : Externals) (cfg : Config) (req : Request)
    (raw : String) (p : VSTSPayload)
    (hm : req.Method = "POST") (hb : req.Body = .ok raw)
    (hp : ext.unmarshalPayload raw = .ok p) (he : p.EventType = "git.push") :
    ((∃ ru, p.Resource.RefUpdates[0]? = some ru ∧ 3 ≤ (strings.Split ru.Name '/').length) ↔
      ∀ line i n, line ∈ [241, 242, 243] →
        (vstsHandler ext cfg req).panic ≠ some (.indexOutOfRange line i n)) ∧
    ((∃ ru, p.Resource.RefUpdates[0]? = some ru ∧ 3 ≤ (strings.Split ru.Name '/').length) →
      vstsHandler ext cfg req = { logs := ["Tag pushed, ignoring."] } ∨
      vstsHandler ext cfg req = { logs := ["Branch deletion, ignoring."] } ∨
      (vstsHandler ext cfg req).built ≠ none) ∧
    (∀ r resp body, r ∈ (vstsHandler ext cfg req).calls → ext.clientDo r = .ok resp →
      resp.Body = .ok body →
      ((ext.unmarshalResponse body).Jobs ≠ [] → (vstsHandler ext cfg req).panic = none) ∧
      ((ext.unmarshalResponse body).Jobs = [] →
        (vstsHandler ext cfg req).panic = some (.indexOutOfRange 306 0 0))) ∧
    (∀ (ext1 : Externals) (cfg1 : Config) (req1 : Request) (i n : Nat),
      (vstsHandler ext1 cfg1 req1).panic ≠ some (.indexOutOfRange 272 i n)) := by
  have hcases := vstsHandler_push_cases ext cfg req raw p hm hb hp he
  refine ⟨⟨?_, ?_⟩, ?_, ?_, ?_⟩
  · rintro ⟨ru, hru, hlen⟩ line i n hline hpanic
    rcases hcases with ⟨h0, _⟩ | ⟨ru1, h1, hl, _⟩ | ⟨ru1, h1, hl, _⟩ | ⟨_, _, _, h | h | h⟩
    · rw [hru] at h0
      simp at h0
    · rw [hru] at h1
      cases h1
      omega
    · rw [hru] at h1
      cases h1
      omega
    · rw [h] at hpanic
      simp at hpanic
    · rw [h] at hpanic
      simp at hpanic
    · obtain ⟨logs, br, a, e, m, hd⟩ := h
      rw [hd] at hpanic
      have := dispatch_panic_index ext cfg logs _ a e m line i n hpanic
      subst this
      simp at hline
  · intro hsafe
    rcases hcases with ⟨_, h⟩ | ⟨ru1, _, _, h⟩ | ⟨ru1, _, _, h⟩ | ⟨ru1, h1, hl, _⟩
    · exact absurd (by rw [h]) (hsafe 241 0 p.Resource.RefUpdates.length (by simp))
    · exact absurd (by rw [h]) (hsafe 242 1 (strings.Split ru1.Name '/').length (by simp))
    · exact absurd (by rw [h]) (hsafe 243 2 (strings.Split ru1.Name '/').length (by simp))
    · exact ⟨ru1, h1, hl⟩
  · rintro ⟨ru, hru, hlen⟩
    rcases hcases with ⟨h0, _⟩ | ⟨ru1, h1, hl, _⟩ | ⟨ru1, h1, hl, _⟩ | ⟨_, _, _, h | h | h⟩
    · rw [hru] at h0
      simp at h0
    · rw [hru] at h1
      cases h1
      omega
    · rw [hru] at h1
      cases h1
      omega
    · exact Or.inl h
    · exact Or.inr (Or.inl h)
    · obtain ⟨logs, br, a, e, m, hd⟩ := h
      refine Or.inr (Or.inr ?_)
      rw [hd, dispatch_built]
      simp
  · intro r resp body hr hdo hbody
    rcases vstsHandler_cases ext cfg req with ⟨hnil, _⟩ | ⟨logs, br, co, a, e, m, hd⟩
    · rw [hnil] at hr
      simp at hr
    · rw [hd] at hr ⊢
      rw [dispatch_panic_of_response ext cfg logs _ a e m r resp body hr hdo hbody]
      constructor
      · intro hj
        simp [hj]
      · intro hj
        simp [hj]
  · intro ext1 cfg1 req1 i n hpanic
    rcases vstsHandler_cases ext1 cfg1 req1 with ⟨_, _, hle⟩ | ⟨logs, br, co, a, e, m, hd⟩
    · have := hle 272 i n hpanic
      omega
    · rw [hd] at hpanic
      have := dispatch_panic_index ext1 cfg1 logs _ a e m 272 i n hpanic
      omega

/-- Witness of C9: the push of `refs/heads/main` with one commit record, answered by the
downstream with one job, ends without a panic. -/
theorem C9_indexing_safe_witness :
    (vstsHandler (sampleExternals (pushEvent "refs/heads/main" sampleObjectID [adaCommit])
      [sampleJob]) sampleConfig postPush).panic = none :=
  ((C9_indexing_safe
    (sampleExternals (pushEvent "refs/heads/main" sampleObjectID [adaCommit]) [sampleJob])
    sampleConfig postPush "push" (pushEvent "refs/heads/main" sampleObjectID [adaCommit])
    (by decide) (by rfl) (by rfl) (by decide)).2.2.1
    { Method := "POST", URL := "https://ci.example/builds",
      Header := [("Authorization", "Bearer tok"), ("Content-Type", "application/json")],
      Body := json.Marshal
        { Branch := "main", Commit := sampleObjectID, Message := "fix bug",
          Author := { Name := "Ada", Email := "ada@x.com" } } }
    { Body := .ok "ok" } "ok" (List.mem_singleton.mpr rfl) (by rfl) (by rfl)).1 (by decide)

/-- C10: whenever the handler reaches `json.Marshal`, the payload has only `Branch`,
`Commit`, `Message`, `Author.Name` and `Author.Email` set: `Env.MYENVVAR` and
`MetaData.SomeBuildData` are empty and `MetaData.OtherBuildData` is false, whatever the
inbound event; the serialised body still ends with the keys `env` (holding `MY_ENV_VAR`)
and `meta_data`, and that body is the one of every request handed to `client.Do`. -/
theorem C10_unset_fields_serialised (ext : Externals) (cfg : Config) (req : Request)
    (bp : BuildkitePayload) (h : (vstsHandler ext cfg req).built = some bp) :
    bp.Env.MYENVVAR = "" ∧ bp.MetaData.SomeBuildData = "" ∧
      bp.MetaData.OtherBuildData = false ∧
      bp = { Commit := bp.Commit, Branch := bp.Branch, Message := bp.Message,
             Author := { Name := bp.Author.Name, Email := bp.Author.Email } } ∧
      json.Marshal bp =
        "\x7b\"commit\":" ++ json.quote bp.Commit ++
        ",\"branch\":" ++ json.quote bp.Branch ++
        ",\"message\":" ++ json.quote bp.Message ++
        ",\"author\":\x7b\"name\":" ++ json.quote bp.Author.Name ++
        ",\"email\":" ++ json.quote bp.Author.Email ++ "\x7d" ++
        ",\"env\":\x7b\"MY_ENV_VAR\":\"\"\x7d" ++
        ",\"meta_data\":\x7b\"some build data\":\"\",\"other build data\":false\x7d\x7d" ∧
      (∀ r ∈ (vstsHandler ext cfg req).calls, r.Body = json.Marshal bp) := by
  rcases vstsHandler_cases ext cfg req with ⟨_, hnone, _⟩ | ⟨logs, br, co, a, e, m, hd⟩
  · rw [hnone] at h
    simp at h
  · rw [hd] at h ⊢
    rw [dispatch_built] at h
    injection h with h
    subst h
    have e1 : ",\"env\":\x7b\"MY_ENV_VAR\":\"\"\x7d" =
        ",\"env\":\x7b\"MY_ENV_VAR\":" ++ json.quote "" ++ "\x7d" := by decide
    have e2 : ",\"meta_data\":\x7b\"some build data\":\"\",\"other build data\":false\x7d\x7d" =
        ",\"meta_data\":\x7b\"some build data\":" ++ json.quote "" ++
          ",\"other build data\":" ++ json.bool false ++ "\x7d\x7d" := by decide
    refine ⟨rfl, rfl, rfl, rfl, ?_, ?_⟩
    · rw [e1, e2]
      simp only [json.Marshal, String.append_assoc]
    · intro r hmem
      obtain ⟨parsed, _, hreq⟩ := dispatch_calls _ _ _ _ _ _ _ r hmem
      rw [hreq]

/-- Witness of C10: the push of `refs/heads/main` with one commit record. -/
theorem C10_unset_fields_serialised_witness :
    json.Marshal
        { Branch := "main", Commit := sampleObjectID, Message := "fix bug",
          Author := { Name := "Ada", Email := "ada@x.com" } } =
      "\x7b\"commit\":" ++ json.quote sampleObjectID ++
      ",\"branch\":" ++ json.quote "main" ++
      ",\"message\":" ++ json.quote "fix bug" ++
      ",\"author\":\x7b\"name\":" ++ json.quote "Ada" ++
      ",\"email\":" ++ json.quote "ada@x.com" ++ "\x7d" ++
      ",\"env\":\x7b\"MY_ENV_VAR\":\"\"\x7d" ++
      ",\"meta_data\":\x7b\"some build data\":\"\",\"other build data\":false\x7d\x7d" :=
  (C10_unset_fields_serialised
    (sampleExternals (pushEvent "refs/heads/main" sampleObjectID [adaCommit]) [sampleJob])
    sampleConfig postPush
    { Branch := "main", Commit := sampleObjectID, Message := "fix bug",
      Author := { Name := "Ada", Email := "ada@x.com" } }
    (by decide)).2.2.2.2.1

end VstsBuildkite
